import Mathlib

/-!
Verification development for the smart-video-classifier repository's
text-categorization core.

Shallow embedding conventions:
  * Python float arithmetic on scores and confidences is modelled exactly
    over `ℚ` (the constants 0.1, 0.15, 0.2, 0.4, 0.6, 0.95 ... are exact
    rationals in the source, and no score computation leaves ℚ).
  * Regular-expression matching is abstracted by a match-count oracle
    `mc : String → Nat`, standing for `len(pattern.findall(text_lower))`
    applied to the compiled pattern of each keyword
    (`AdvancedRegexCategorizer.__init__` / `_make_flexible_pattern`).
    Concrete oracles used in counterexamples are realizable: a comment next
    to each names a text realizing the counts.
  * Python `str.strip()` / `str.split()` are modelled over the string's
    character list (`pyStripLen`, `tokenCount`); `len` on strings is
    codepoint count in both languages.
  * Python dicts are modelled as lists in insertion order (which Python
    preserves and the source relies on for tie-breaking in `sorted`/`max`).
-/

set_option allowUnsafeReducibility true

attribute [semireducible] Rat.add Rat.sub Rat.mul Rat.inv Rat.ofScientific

namespace SVC

/-- The `Category` dataclass of src/core/production_categorizer.py (lines 30-36). -/
structure Category where
  name : String
  name_fa : String
  description : String
  keywords : List String
  weight_boost : ℚ
deriving DecidableEq, Repr

/-- Category record transcribed from CATEGORIES_DETAILED["news"] in src/core/production_categorizer.py. -/
def cat_news : Category :=
  { name := "news", name_fa := "اخبار", description := "اخبار روز، گزارش\u200cهای خبری",
    keywords := ["خبر", "اخبار", "گزارش", "فوری", "رویداد", "حادثه", "اتفاق", "خبرنگار", "خبرگزاری", "بولتن", "تیتر", "سرخط", "breaking", "news"], weight_boost := 1 }

/-- Category record transcribed from CATEGORIES_DETAILED["politics_domestic"] in src/core/production_categorizer.py. -/
def cat_politics_domestic : Category :=
  { name := "politics_domestic", name_fa := "سیاست داخلی", description := "سیاست داخلی ایران",
    keywords := ["مجلس", "دولت", "رئیس\u200cجمهور", "وزیر", "نماینده", "قوه", "رهبر", "رهبری", "شورای نگهبان", "مجمع تشخیص", "قانون", "لایحه", "استیضاح", "انتخابات", "کاندیدا", "نامزد", "رأی", "صندوق", "حوزه انتخابیه"], weight_boost := 1 }

/-- Category record transcribed from CATEGORIES_DETAILED["politics_international"] in src/core/production_categorizer.py. -/
def cat_politics_international : Category :=
  { name := "politics_international", name_fa := "سیاست بین\u200cالملل", description := "روابط بین\u200cالملل و سیاست جهانی",
    keywords := ["دیپلماسی", "سفیر", "سفارت", "وزارت خارجه", "سازمان ملل", "برجام", "تحریم", "مذاکره", "پیمان", "معاهده", "ناتو", "اتحادیه اروپا", "روابط خارجی", "بین\u200cالملل", "کشور", "دولت\u200cها"], weight_boost := 1 }

/-- Category record transcribed from CATEGORIES_DETAILED["geopolitics"] in src/core/production_categorizer.py. -/
def cat_geopolitics : Category :=
  { name := "geopolitics", name_fa := "ژئوپلیتیک", description := "تحلیل ژئوپلیتیکی و منطقه\u200cای",
    keywords := ["ژئوپلیتیک", "منطقه", "خاورمیانه", "آسیا", "اروپا", "آمریکا", "روسیه", "چین", "قدرت", "نفوذ", "استراتژی", "منافع ملی"], weight_boost := 1 }

/-- Category record transcribed from CATEGORIES_DETAILED["economy"] in src/core/production_categorizer.py. -/
def cat_economy : Category :=
  { name := "economy", name_fa := "اقتصاد", description := "اخبار و تحلیل اقتصادی",
    keywords := ["اقتصاد", "بازار", "بورس", "سهام", "ارز", "دلار", "تورم", "رکود", "رشد اقتصادی", "تولید ناخالص", "بانک مرکزی", "نرخ بهره", "سرمایه", "سرمایه\u200cگذاری", "تجارت", "واردات", "صادرات", "گمرک"], weight_boost := 1 }

/-- Category record transcribed from CATEGORIES_DETAILED["crypto"] in src/core/production_categorizer.py. -/
def cat_crypto : Category :=
  { name := "crypto", name_fa := "ارز دیجیتال", description := "ارزهای دیجیتال و بلاکچین",
    keywords := ["بیت\u200cکوین", "اتریوم", "کریپتو", "ارز دیجیتال", "بلاکچین", "ماینینگ", "استخراج", "کیف پول", "صرافی", "توکن", "NFT", "دیفای", "bitcoin", "ethereum", "crypto", "blockchain"], weight_boost := 1 }

/-- Category record transcribed from CATEGORIES_DETAILED["military"] in src/core/production_categorizer.py. -/
def cat_military : Category :=
  { name := "military", name_fa := "نظامی", description := "اخبار و تحلیل نظامی",
    keywords := ["ارتش", "سپاه", "نیروی هوایی", "نیروی دریایی", "نظامی", "جنگ", "درگیری", "عملیات", "رزمایش", "موشک", "پهپاد", "تانک", "جنگنده", "سلاح", "مهمات", "تسلیحات", "ناو", "زیردریایی"], weight_boost := 1 }

/-- Category record transcribed from CATEGORIES_DETAILED["defense"] in src/core/production_categorizer.py. -/
def cat_defense : Category :=
  { name := "defense", name_fa := "دفاعی", description := "صنایع دفاعی و فناوری نظامی",
    keywords := ["پدافند", "سامانه موشکی", "رادار", "جنگ الکترونیک", "سایبری", "پهپاد", "موشک بالستیک", "کروز", "ماهواره نظامی"], weight_boost := 1 }

/-- Category record transcribed from CATEGORIES_DETAILED["history_ancient"] in src/core/production_categorizer.py. -/
def cat_history_ancient : Category :=
  { name := "history_ancient", name_fa := "تاریخ باستان", description := "تاریخ باستان و تمدن\u200cهای قدیمی",
    keywords := ["باستان", "هخامنشی", "ساسانی", "اشکانی", "مادها", "کوروش", "داریوش", "تخت جمشید", "شوش", "تمدن", "امپراتوری", "پادشاه"], weight_boost := 1 }

/-- Category record transcribed from CATEGORIES_DETAILED["history_medieval"] in src/core/production_categorizer.py. -/
def cat_history_medieval : Category :=
  { name := "history_medieval", name_fa := "تاریخ میانه", description := "تاریخ قرون وسطی و اسلامی",
    keywords := ["قرون وسطی", "صفوی", "قاجار", "عباسی", "اموی", "سلجوقی", "مغول", "تیموری", "شاه عباس", "نادرشاه"], weight_boost := 1 }

/-- Category record transcribed from CATEGORIES_DETAILED["history_modern"] in src/core/production_categorizer.py. -/
def cat_history_modern : Category :=
  { name := "history_modern", name_fa := "تاریخ معاصر", description := "تاریخ معاصر و قرن بیستم",
    keywords := ["انقلاب", "مشروطه", "پهلوی", "جنگ جهانی", "جنگ سرد", "استعمار", "ملی شدن نفت", "کودتا", "جنگ تحمیلی"], weight_boost := 1 }

/-- Category record transcribed from CATEGORIES_DETAILED["history_world"] in src/core/production_categorizer.py. -/
def cat_history_world : Category :=
  { name := "history_world", name_fa := "تاریخ جهان", description := "تاریخ جهانی و تمدن\u200cها",
    keywords := ["نازی", "هیتلر", "استالین", "چرچیل", "روزولت", "امپراتوری روم", "یونان باستان", "مصر باستان", "جنگ جهانی اول", "جنگ جهانی دوم"], weight_boost := 1 }

/-- Category record transcribed from CATEGORIES_DETAILED["religion_islam"] in src/core/production_categorizer.py. -/
def cat_religion_islam : Category :=
  { name := "religion_islam", name_fa := "اسلام", description := "آموزش\u200cهای اسلامی",
    keywords := ["قرآن", "نماز", "روزه", "حج", "زکات", "خمس", "امام", "پیامبر", "حدیث", "روایت", "فقه", "احکام", "مسجد", "حرم", "زیارت"], weight_boost := 1 }

/-- Category record transcribed from CATEGORIES_DETAILED["religion_shia"] in src/core/production_categorizer.py. -/
def cat_religion_shia : Category :=
  { name := "religion_shia", name_fa := "تشیع", description := "مذهب شیعه",
    keywords := ["امام حسین", "کربلا", "عاشورا", "محرم", "اربعین", "امام رضا", "مشهد", "نجف", "امام علی", "حضرت زهرا", "ائمه"], weight_boost := 1 }

/-- Category record transcribed from CATEGORIES_DETAILED["religion_other"] in src/core/production_categorizer.py. -/
def cat_religion_other : Category :=
  { name := "religion_other", name_fa := "ادیان", description := "سایر ادیان و معنویت",
    keywords := ["مسیحیت", "یهودیت", "بودیسم", "هندوئیسم", "زرتشت", "عرفان", "تصوف", "معنویت", "مدیتیشن", "یوگا"], weight_boost := 1 }

/-- Category record transcribed from CATEGORIES_DETAILED["tech_ai"] in src/core/production_categorizer.py. -/
def cat_tech_ai : Category :=
  { name := "tech_ai", name_fa := "هوش مصنوعی", description := "هوش مصنوعی و یادگیری ماشین",
    keywords := ["هوش مصنوعی", "یادگیری ماشین", "یادگیری عمیق", "شبکه عصبی", "ChatGPT", "GPT", "AI", "machine learning", "deep learning", "داده", "الگوریتم", "مدل", "آموزش مدل"], weight_boost := 1 }

/-- Category record transcribed from CATEGORIES_DETAILED["tech_programming"] in src/core/production_categorizer.py. -/
def cat_tech_programming : Category :=
  { name := "tech_programming", name_fa := "برنامه\u200cنویسی", description := "برنامه\u200cنویسی و توسعه نرم\u200cافزار",
    keywords := ["برنامه\u200cنویسی", "کدنویسی", "پایتون", "جاوا", "جاوااسکریپت", "وب", "اپلیکیشن", "فرانت\u200cاند", "بک\u200cاند", "دیتابیس", "API", "گیت", "گیتهاب", "لینوکس", "سرور"], weight_boost := 1 }

/-- Category record transcribed from CATEGORIES_DETAILED["tech_hardware"] in src/core/production_categorizer.py. -/
def cat_tech_hardware : Category :=
  { name := "tech_hardware", name_fa := "سخت\u200cافزار", description := "سخت\u200cافزار و گجت\u200cها",
    keywords := ["موبایل", "گوشی", "لپ\u200cتاپ", "کامپیوتر", "پردازنده", "گرافیک", "رم", "حافظه", "باتری", "آیفون", "سامسونگ", "شیائومی", "اپل", "گوگل", "مایکروسافت"], weight_boost := 1 }

/-- Category record transcribed from CATEGORIES_DETAILED["tech_internet"] in src/core/production_categorizer.py. -/
def cat_tech_internet : Category :=
  { name := "tech_internet", name_fa := "اینترنت", description := "اینترنت و شبکه\u200cهای اجتماعی",
    keywords := ["اینترنت", "فیلترینگ", "VPN", "شبکه اجتماعی", "اینستاگرام", "تلگرام", "توییتر", "یوتیوب", "تیک\u200cتاک", "فیسبوک"], weight_boost := 1 }

/-- Category record transcribed from CATEGORIES_DETAILED["health_medicine"] in src/core/production_categorizer.py. -/
def cat_health_medicine : Category :=
  { name := "health_medicine", name_fa := "پزشکی", description := "پزشکی و درمان",
    keywords := ["پزشک", "دکتر", "بیمارستان", "درمان", "دارو", "بیماری", "سرطان", "قلب", "دیابت", "فشار خون", "جراحی", "عمل"], weight_boost := 1 }

/-- Category record transcribed from CATEGORIES_DETAILED["health_mental"] in src/core/production_categorizer.py. -/
def cat_health_mental : Category :=
  { name := "health_mental", name_fa := "سلامت روان", description := "روانشناسی و سلامت روان",
    keywords := ["روانشناسی", "افسردگی", "اضطراب", "استرس", "روان\u200cدرمانی", "مشاوره", "روانپزشک", "خودشناسی", "ذهن\u200cآگاهی"], weight_boost := 1 }

/-- Category record transcribed from CATEGORIES_DETAILED["health_fitness"] in src/core/production_categorizer.py. -/
def cat_health_fitness : Category :=
  { name := "health_fitness", name_fa := "تناسب اندام", description := "ورزش و تناسب اندام",
    keywords := ["تناسب اندام", "فیتنس", "بدنسازی", "ورزش", "رژیم", "لاغری", "عضله", "چربی", "کالری", "پروتئین", "مکمل"], weight_boost := 1 }

/-- Category record transcribed from CATEGORIES_DETAILED["health_nutrition"] in src/core/production_categorizer.py. -/
def cat_health_nutrition : Category :=
  { name := "health_nutrition", name_fa := "تغذیه", description := "تغذیه سالم",
    keywords := ["تغذیه", "رژیم غذایی", "ویتامین", "مواد مغذی", "سبزیجات", "میوه", "پروتئین", "کربوهیدرات", "چربی سالم"], weight_boost := 1 }

/-- Category record transcribed from CATEGORIES_DETAILED["sports_football"] in src/core/production_categorizer.py. -/
def cat_sports_football : Category :=
  { name := "sports_football", name_fa := "فوتبال", description := "فوتبال",
    keywords := ["فوتبال", "لیگ برتر", "لیگ قهرمانان", "جام جهانی", "گل", "بازی", "تیم", "مربی", "بازیکن", "داور", "پنالتی", "استقلال", "پرسپولیس", "رئال", "بارسلونا"], weight_boost := 1 }

/-- Category record transcribed from CATEGORIES_DETAILED["sports_other"] in src/core/production_categorizer.py. -/
def cat_sports_other : Category :=
  { name := "sports_other", name_fa := "سایر ورزش\u200cها", description := "سایر رشته\u200cهای ورزشی",
    keywords := ["بسکتبال", "والیبال", "کشتی", "تکواندو", "شنا", "دوومیدانی", "تنیس", "شطرنج", "المپیک", "مدال", "قهرمانی"], weight_boost := 1 }

/-- Category record transcribed from CATEGORIES_DETAILED["cooking_persian"] in src/core/production_categorizer.py. -/
def cat_cooking_persian : Category :=
  { name := "cooking_persian", name_fa := "آشپزی ایرانی", description := "غذاهای ایرانی",
    keywords := ["قورمه سبزی", "قیمه", "کباب", "جوجه", "چلو", "پلو", "خورش", "آش", "دیزی", "زرشک پلو", "تهدیگ"], weight_boost := 1 }

/-- Category record transcribed from CATEGORIES_DETAILED["cooking_international"] in src/core/production_categorizer.py. -/
def cat_cooking_international : Category :=
  { name := "cooking_international", name_fa := "آشپزی بین\u200cالمللی", description := "غذاهای بین\u200cالمللی",
    keywords := ["پیتزا", "پاستا", "سوشی", "برگر", "استیک", "سالاد", "فست فود", "ایتالیایی", "چینی", "ژاپنی"], weight_boost := 1 }

/-- Category record transcribed from CATEGORIES_DETAILED["cooking_baking"] in src/core/production_categorizer.py. -/
def cat_cooking_baking : Category :=
  { name := "cooking_baking", name_fa := "شیرینی\u200cپزی", description := "کیک و شیرینی",
    keywords := ["کیک", "شیرینی", "دسر", "بیسکویت", "کلوچه", "باقلوا", "زولبیا", "نان", "خمیر", "فر", "پخت"], weight_boost := 1 }

/-- Category record transcribed from CATEGORIES_DETAILED["entertainment_movie"] in src/core/production_categorizer.py. -/
def cat_entertainment_movie : Category :=
  { name := "entertainment_movie", name_fa := "فیلم", description := "فیلم و سینما",
    keywords := ["فیلم", "سینما", "کارگردان", "بازیگر", "اسکار", "هالیوود", "سریال", "نتفلیکس", "فیلمبرداری", "سناریو"], weight_boost := 1 }

/-- Category record transcribed from CATEGORIES_DETAILED["entertainment_music"] in src/core/production_categorizer.py. -/
def cat_entertainment_music : Category :=
  { name := "entertainment_music", name_fa := "موسیقی", description := "موسیقی",
    keywords := ["موسیقی", "آهنگ", "خواننده", "کنسرت", "آلبوم", "ترانه", "ملودی", "ریتم", "پاپ", "راک", "سنتی", "رپ"], weight_boost := 1 }

/-- Category record transcribed from CATEGORIES_DETAILED["entertainment_comedy"] in src/core/production_categorizer.py. -/
def cat_entertainment_comedy : Category :=
  { name := "entertainment_comedy", name_fa := "طنز", description := "طنز و کمدی",
    keywords := ["طنز", "کمدی", "خنده", "شوخی", "جوک", "استندآپ", "کمدین", "خنده\u200cدار", "شاد"], weight_boost := 1 }

/-- Category record transcribed from CATEGORIES_DETAILED["gaming_pc"] in src/core/production_categorizer.py. -/
def cat_gaming_pc : Category :=
  { name := "gaming_pc", name_fa := "بازی PC", description := "بازی\u200cهای کامپیوتری",
    keywords := ["گیم", "بازی", "پلی", "گیمر", "استریم", "لول", "مرحله", "کنسول", "پلی\u200cاستیشن", "ایکس\u200cباکس", "نینتندو", "PC"], weight_boost := 1 }

/-- Category record transcribed from CATEGORIES_DETAILED["gaming_mobile"] in src/core/production_categorizer.py. -/
def cat_gaming_mobile : Category :=
  { name := "gaming_mobile", name_fa := "بازی موبایل", description := "بازی\u200cهای موبایلی",
    keywords := ["بازی موبایل", "کلش", "پابجی", "فری فایر", "کال آف دیوتی موبایل"], weight_boost := 1 }

/-- Category record transcribed from CATEGORIES_DETAILED["education_academic"] in src/core/production_categorizer.py. -/
def cat_education_academic : Category :=
  { name := "education_academic", name_fa := "آموزش دانشگاهی", description := "دروس دانشگاهی",
    keywords := ["دانشگاه", "استاد", "درس", "امتحان", "کنکور", "تحصیل", "لیسانس", "فوق لیسانس", "دکتری", "پایان\u200cنامه"], weight_boost := 1 }

/-- Category record transcribed from CATEGORIES_DETAILED["education_language"] in src/core/production_categorizer.py. -/
def cat_education_language : Category :=
  { name := "education_language", name_fa := "آموزش زبان", description := "آموزش زبان\u200cهای خارجی",
    keywords := ["زبان انگلیسی", "آیلتس", "تافل", "گرامر", "لغت", "مکالمه", "زبان آلمانی", "زبان فرانسه", "زبان عربی"], weight_boost := 1 }

/-- Category record transcribed from CATEGORIES_DETAILED["education_skills"] in src/core/production_categorizer.py. -/
def cat_education_skills : Category :=
  { name := "education_skills", name_fa := "آموزش مهارت", description := "آموزش مهارت\u200cهای عملی",
    keywords := ["آموزش", "یادگیری", "تمرین", "مهارت", "دوره", "کلاس", "ورکشاپ", "کارگاه", "گواهینامه"], weight_boost := 1 }

/-- Category record transcribed from CATEGORIES_DETAILED["lifestyle_vlog"] in src/core/production_categorizer.py. -/
def cat_lifestyle_vlog : Category :=
  { name := "lifestyle_vlog", name_fa := "ولاگ", description := "ویدیوهای روزمره",
    keywords := ["ولاگ", "روزمره", "روتین", "زندگی", "یه روز", "همراه من", "با من بیا", "روزانه"], weight_boost := 1 }

/-- Category record transcribed from CATEGORIES_DETAILED["lifestyle_travel"] in src/core/production_categorizer.py. -/
def cat_lifestyle_travel : Category :=
  { name := "lifestyle_travel", name_fa := "سفر", description := "سفر و گردشگری",
    keywords := ["سفر", "گردشگری", "توریست", "هتل", "پرواز", "ویزا", "جاذبه", "دیدنی", "طبیعت", "ماجراجویی"], weight_boost := 1 }

/-- Category record transcribed from CATEGORIES_DETAILED["lifestyle_fashion"] in src/core/production_categorizer.py. -/
def cat_lifestyle_fashion : Category :=
  { name := "lifestyle_fashion", name_fa := "مد و زیبایی", description := "مد و آرایش",
    keywords := ["مد", "فشن", "لباس", "استایل", "آرایش", "میکاپ", "زیبایی", "مو", "اکسسوری", "برند"], weight_boost := 1 }

/-- Category record transcribed from CATEGORIES_DETAILED["automotive"] in src/core/production_categorizer.py. -/
def cat_automotive : Category :=
  { name := "automotive", name_fa := "خودرو", description := "خودرو و وسایل نقلیه",
    keywords := ["خودرو", "ماشین", "موتور", "بنز", "بی\u200cام\u200cو", "تویوتا", "ایران\u200cخودرو", "سایپا", "تست", "بررسی", "سرعت"], weight_boost := 1 }

/-- Category record transcribed from CATEGORIES_DETAILED["business"] in src/core/production_categorizer.py. -/
def cat_business : Category :=
  { name := "business", name_fa := "کسب\u200cوکار", description := "کارآفرینی و کسب\u200cوکار",
    keywords := ["کسب\u200cوکار", "استارتاپ", "کارآفرینی", "درآمد", "سود", "فروش", "مارکتینگ", "بازاریابی", "مشتری", "برند"], weight_boost := 1 }

/-- Category record transcribed from CATEGORIES_DETAILED["family_kids"] in src/core/production_categorizer.py. -/
def cat_family_kids : Category :=
  { name := "family_kids", name_fa := "کودک", description := "محتوای کودکان",
    keywords := ["کودک", "بچه", "کارتون", "انیمیشن", "بازی کودک", "آموزش کودک", "قصه", "شعر کودک"], weight_boost := 1 }

/-- Category record transcribed from CATEGORIES_DETAILED["family_parenting"] in src/core/production_categorizer.py. -/
def cat_family_parenting : Category :=
  { name := "family_parenting", name_fa := "والدین", description := "فرزندپروری",
    keywords := ["فرزندپروری", "والدین", "مادر", "پدر", "تربیت", "نوزاد", "بارداری", "شیردهی"], weight_boost := 1 }

/-- Category record transcribed from CATEGORIES_DETAILED["documentary"] in src/core/production_categorizer.py. -/
def cat_documentary : Category :=
  { name := "documentary", name_fa := "مستند", description := "فیلم\u200cهای مستند",
    keywords := ["مستند", "داکیومنتری", "حیات وحش", "طبیعت", "علمی", "تحقیق", "بررسی", "گزارش مستند"], weight_boost := 1 }

/-- Category record transcribed from CATEGORIES_DETAILED["podcast"] in src/core/production_categorizer.py. -/
def cat_podcast : Category :=
  { name := "podcast", name_fa := "پادکست", description := "پادکست و گفتگو",
    keywords := ["پادکست", "گفتگو", "مصاحبه", "بحث", "میزگرد", "نظر", "دیدگاه"], weight_boost := 1 }

/-- Category record transcribed from CATEGORIES_DETAILED["asmr"] in src/core/production_categorizer.py. -/
def cat_asmr : Category :=
  { name := "asmr", name_fa := "ASMR", description := "ویدیوهای آرامش\u200cبخش",
    keywords := ["ASMR", "آرامش", "خواب", "ریلکس", "صدای آرام"], weight_boost := 1 }

/-- Category record transcribed from CATEGORIES_DETAILED["other"] in src/core/production_categorizer.py. -/
def cat_other : Category :=
  { name := "other", name_fa := "سایر", description := "دسته\u200cبندی نشده",
    keywords := [], weight_boost := 1/2 }

/-- The category catalog, in Python dict insertion order (src/core/production_categorizer.py lines 39-362). -/
def CATEGORIES_DETAILED : List Category :=
  [cat_news, cat_politics_domestic, cat_politics_international, cat_geopolitics, cat_economy, cat_crypto, cat_military, cat_defense, cat_history_ancient, cat_history_medieval, cat_history_modern, cat_history_world, cat_religion_islam, cat_religion_shia, cat_religion_other, cat_tech_ai, cat_tech_programming, cat_tech_hardware, cat_tech_internet, cat_health_medicine, cat_health_mental, cat_health_fitness, cat_health_nutrition, cat_sports_football, cat_sports_other, cat_cooking_persian, cat_cooking_international, cat_cooking_baking, cat_entertainment_movie, cat_entertainment_music, cat_entertainment_comedy, cat_gaming_pc, cat_gaming_mobile, cat_education_academic, cat_education_language, cat_education_skills, cat_lifestyle_vlog, cat_lifestyle_travel, cat_lifestyle_fashion, cat_automotive, cat_business, cat_family_kids, cat_family_parenting, cat_documentary, cat_podcast, cat_asmr, cat_other]

/-- Group table transcribed from CATEGORY_GROUPS (src/core/production_categorizer.py lines 365-381), in insertion order. -/
def CATEGORY_GROUPS : List (String × List String) :=
  [("news_politics", ["news", "politics_domestic", "politics_international", "geopolitics"]),
  ("economy", ["economy", "crypto"]),
  ("military_defense", ["military", "defense"]),
  ("history", ["history_ancient", "history_medieval", "history_modern", "history_world"]),
  ("religion", ["religion_islam", "religion_shia", "religion_other"]),
  ("technology", ["tech_ai", "tech_programming", "tech_hardware", "tech_internet"]),
  ("health", ["health_medicine", "health_mental", "health_fitness", "health_nutrition"]),
  ("sports", ["sports_football", "sports_other"]),
  ("cooking", ["cooking_persian", "cooking_international", "cooking_baking"]),
  ("entertainment", ["entertainment_movie", "entertainment_music", "entertainment_comedy"]),
  ("gaming", ["gaming_pc", "gaming_mobile"]),
  ("education", ["education_academic", "education_language", "education_skills"]),
  ("lifestyle", ["lifestyle_vlog", "lifestyle_travel", "lifestyle_fashion"]),
  ("other", ["automotive", "business", "family_kids", "family_parenting", "documentary", "podcast", "asmr", "other"])]
/-- Result record of `AdvancedRegexCategorizer.classify`. The diagnostic
`matched_keywords` key (present only on the scored path) is omitted: no claim
inspects it. Keys absent from a branch's dict are modelled as `[]`. -/
structure ClassifyResult where
  label : String
  label_fa : String
  confidence : ℚ
  top_categories : List (String × ℚ)
  all_scores : List (String × ℚ)
  method : String
deriving DecidableEq, Repr

/-- The early-return record for texts shorter than 20 characters
(src/core/production_categorizer.py lines 414-422). -/
def insufficientResult : ClassifyResult :=
  { label := "other", label_fa := "سایر", confidence := 1/10,
    top_categories := [("other", 1/10)], all_scores := [], method := "insufficient_text" }

/-- The record returned when the score total is not positive
(src/core/production_categorizer.py lines 449-457). -/
def noMatchResult : ClassifyResult :=
  { label := "other", label_fa := "سایر", confidence := 3/20,
    top_categories := [("other", 3/20)], all_scores := [], method := "no_match" }

/-- `len(text.strip())`: codepoint length after stripping leading and
trailing whitespace, computed over the string's character list so that the
kernel can evaluate it. -/
def pyStripLen (s : String) : Nat :=
  (((s.data.dropWhile Char.isWhitespace).reverse.dropWhile Char.isWhitespace).reverse).length

/-- `len(text.split())` (src/core/production_categorizer.py line 425):
Python `split()` with no argument counts the maximal nonempty runs of
non-whitespace characters. -/
def tokenCount (s : String) : Nat :=
  (s.data.foldl
    (fun st c =>
      if Char.isWhitespace c then (st.1, false)
      else if st.2 then st else (st.1 + 1, true))
    ((0 : Nat), false)).1

/-- One keyword's contribution inside the pattern loop
(src/core/production_categorizer.py lines 434-444):
`tf = count / max(text_len, 1)`, `idf = 1.0 + len(keyword) / 10`,
`score = tf * idf * cat.weight_boost`, added only when the pattern matched. -/
def keywordScore (mc : String → Nat) (textLen : Nat) (boost : ℚ) (kw : String) : ℚ :=
  if mc kw = 0 then 0
  else ((mc kw : ℚ) / ((max textLen 1 : Nat) : ℚ)) * (1 + (kw.length : ℚ) / 10) * boost

/-- A category's accumulated raw score: the inner keyword loop of
`AdvancedRegexCategorizer.classify` (lines 431-445). -/
def rawScore (mc : String → Nat) (textLen : Nat) (cat : Category) : ℚ :=
  cat.keywords.foldl (fun acc kw => acc + keywordScore mc textLen cat.weight_boost kw) 0

/-- The `scores` defaultdict as an association list: a category appears iff
some keyword pattern matched (`if found:` guards every insertion), in catalog
insertion order (the outer loop's order). -/
def scoreEntries (cats : List Category) (mc : String → Nat) (textLen : Nat) :
    List (String × ℚ) :=
  (cats.filter (fun c => c.keywords.any (fun kw => mc kw != 0))).map
    (fun c => (c.name, rawScore mc textLen c))

/-- `total = sum(scores.values())` (line 448). -/
def entriesTotal (cats : List Category) (mc : String → Nat) (textLen : Nat) : ℚ :=
  ((scoreEntries cats mc textLen).map Prod.snd).sum

/-- `normalized = {k: v / total for k, v in scores.items()}` (line 459). -/
def normEntries (cats : List Category) (mc : String → Nat) (textLen : Nat) :
    List (String × ℚ) :=
  (scoreEntries cats mc textLen).map
    (fun p => (p.1, p.2 / entriesTotal cats mc textLen))

/-- Ordering used by `sorted(normalized.items(), key=lambda x: x[1], reverse=True)`:
a stable descending sort on the score component. -/
def scoreRel (a b : String × ℚ) : Prop := b.2 ≤ a.2

instance : DecidableRel scoreRel := fun a b => inferInstanceAs (Decidable (b.2 ≤ a.2))

instance : IsTotal (String × ℚ) scoreRel := ⟨fun a b => le_total b.2 a.2⟩

instance : IsTrans (String × ℚ) scoreRel := ⟨fun _ _ _ h h2 => le_trans h2 h⟩

/-- Python's `sorted(..., key=score, reverse=True)` is a stable descending
sort: insertion sort with `scoreRel` places earlier entries first on ties,
exactly as Python's stable sort does. -/
def sortDesc (l : List (String × ℚ)) : List (String × ℚ) :=
  l.insertionSort scoreRel

/-- `sorted_cats` of line 462. -/
def sortedShares (cats : List Category) (mc : String → Nat) (textLen : Nat) :
    List (String × ℚ) :=
  sortDesc (normEntries cats mc textLen)

/-- The score of the top-ranked candidate (`top_cats[0][1]`, line 466),
defaulting to 0 on the (unreachable) empty list. -/
def topShare (cats : List Category) (mc : String → Nat) (textLen : Nat) : ℚ :=
  ((sortedShares cats mc textLen).headD ("", 0)).2

/-- `self.categories[label].name_fa`; the lookup cannot fail in the source
because every produced label is a catalog key. -/
def nameFaOf (cats : List Category) (label : String) : String :=
  ((cats.find? (fun c => c.name == label)).map Category.name_fa).getD ""

/-- `AdvancedRegexCategorizer.classify` (src/core/production_categorizer.py
lines 412-481), with `top_n` at its default 3. The `cats` parameter stands
for `self.categories`, which `__init__` sets to the module-level
`CATEGORIES_DETAILED`. Branches in source order:
insufficient text, non-positive total, then the ranked path with the
low-confidence override `if best_conf < 0.1: best = "other"; conf = 0.2`.
The `| [] => noMatchResult` arm is dead code: a positive total forces a
non-empty score list. -/
def classify (cats : List Category) (text : String) (mc : String → Nat) :
    ClassifyResult :=
  if text = "" ∨ pyStripLen text < 20 then insufficientResult
  else if entriesTotal cats mc (tokenCount text) ≤ 0 then noMatchResult
  else
    match sortedShares cats mc (tokenCount text) with
    | [] => noMatchResult
    | (bestCat, bestConf) :: _ =>
      if bestConf < 1/10 then
        { label := "other", label_fa := nameFaOf cats "other", confidence := 1/5,
          top_categories := (sortedShares cats mc (tokenCount text)).take 3,
          all_scores := normEntries cats mc (tokenCount text), method := "regex_tfidf" }
      else
        { label := bestCat, label_fa := nameFaOf cats bestCat, confidence := bestConf,
          top_categories := (sortedShares cats mc (tokenCount text)).take 3,
          all_scores := normEntries cats mc (tokenCount text), method := "regex_tfidf" }

/-- The ML half of the hybrid pipeline, as consumed by
`HybridCategorizer._combine_results`: label, Persian label, confidence and
method tag of `_ml_classify`'s return dict (lines 567-572). -/
structure MlResult where
  label : String
  label_fa : String
  confidence : ℚ
  method : String
deriving DecidableEq, Repr

/-- `HybridCategorizer._combine_results` (src/core/production_categorizer.py
lines 574-615): agreement takes `min(r + m, 0.95)`; disagreement weights
regex by 0.6 and ML by 0.4 and the larger weighted score wins (ties go to
regex: `if regex_score >= ml_score`). The nested `regex_result`/`ml_result`
debug payloads are omitted; dict keys absent from a branch are `[]`. -/
def combineResults (r : ClassifyResult) (m : MlResult) : ClassifyResult :=
  if r.label = m.label then
    { label := r.label, label_fa := r.label_fa,
      confidence := min (r.confidence + m.confidence) (95/100),
      top_categories := r.top_categories, all_scores := [],
      method := "hybrid_agreement" }
  else if m.confidence * (4/10) ≤ r.confidence * (6/10) then
    { label := r.label, label_fa := r.label_fa,
      confidence := max (r.confidence * (6/10)) (m.confidence * (4/10)),
      top_categories := [], all_scores := [], method := "hybrid_regex_wins" }
  else
    { label := m.label, label_fa := m.label_fa,
      confidence := max (r.confidence * (6/10)) (m.confidence * (4/10)),
      top_categories := [], all_scores := [], method := "hybrid_ml_wins" }

/-- `HybridCategorizer.classify` (src/core/production_categorizer.py lines
516-540). `useMl` is the method's `use_ml` flag; `mlAvailable` stands for
`self.ml_available and self.ml_classifier` (false when transformers is
missing or `_init_ml_classifier` failed). The ML backend is the oracle
`mlc`; `Except.error` models `_ml_classify` raising, which the
`try/except` recovers by falling through to `return regex_result`. -/
def hybridClassify (useMl mlAvailable : Bool) (mlc : String → Except String MlResult)
    (text : String) (mc : String → Nat) : ClassifyResult :=
  if (4/10 : ℚ) ≤ (classify CATEGORIES_DETAILED text mc).confidence then
    { classify CATEGORIES_DETAILED text mc with method := "regex_high_confidence" }
  else if useMl && mlAvailable then
    match mlc text with
    | Except.ok m => combineResults (classify CATEGORIES_DETAILED text mc) m
    | Except.error _ => classify CATEGORIES_DETAILED text mc
  else classify CATEGORIES_DETAILED text mc

/-- The group-annotation loop of `ProductionCategorizer.classify` (lines
630-637): the first group whose member list contains the label, else `none`. -/
def groupOf (label : String) : Option String :=
  (CATEGORY_GROUPS.find? (fun g => g.2.contains label)).map Prod.fst

/-- `self.categories[label].description` (line 638). -/
def descriptionOf (label : String) : String :=
  ((CATEGORIES_DETAILED.find? (fun c => c.name == label)).map Category.description).getD ""

/-- `ProductionCategorizer.classify`'s enriched result (lines 625-640). -/
structure ProductionResult where
  base : ClassifyResult
  category_group : Option String
  category_description : String
deriving DecidableEq, Repr

/-- `ProductionCategorizer.classify` (src/core/production_categorizer.py
lines 625-640): the hybrid result plus `category_group` and
`category_description`. -/
def productionClassify (useMl mlAvailable : Bool) (mlc : String → Except String MlResult)
    (text : String) (mc : String → Nat) : ProductionResult :=
  { base := hybridClassify useMl mlAvailable mlc text mc,
    category_group := groupOf (hybridClassify useMl mlAvailable mlc text mc).label,
    category_description := descriptionOf (hybridClassify useMl mlAvailable mlc text mc).label }


/-! ### The fallback rule-based classifier of src/core/categorize.py
Regex patterns are carried verbatim as opaque keys; the oracle
`hits : String → Nat` stands for `len(re.findall(pattern, t, re.IGNORECASE))`
on the lowercased input (`_count_hits`). -/

/-- The 12 fallback categories (src/core/categorize.py lines 3-6), in order. -/
def simpleCATEGORIES : List String :=
  ["cooking", "military", "news", "education", "entertainment", "sports", "tech", "vlog", "gaming", "religion", "politics", "other"]

/-- Regex rule table transcribed from _RULES (src/core/categorize.py lines 8-62); patterns kept verbatim as opaque keys for the match-count oracle. -/
def simpleRULES : List (String × List String) :=
  [("cooking", ["\\b(آشپزی|طرز\\s*تهیه|مواد\\s*لازم|دستور)\\b", "\\b(شیرینی|کیک|دسر|غذا|خوراک|نان)\\b", "\\b(آرد|خمیر|بیکینگ\\s*پودر|روغن|تابه|فر|قابلمه|همزن|پیمانه|قالب|زردچوبه|ادویه|زعفران)\\b", "\\b(سرخ|سرخ\\s*کردن|تفت|پخت|بپز|برش|ورز)\\b", "\\b(recipe|cook|cooking|ingredients|bake|fry|oven|dough)\\b"]),
  ("education", ["\\b(آموزش|یادگیری|راهنما|درس|کلاس|دانشگاه|مدرسه|استاد)\\b", "\\b(tutorial|lesson|learn|course|guide|university|school)\\b"]),
  ("vlog", ["\\b(ولاگ|روزمرگی|امروز\\s*با\\s*هم|روتین|my\\s*day)\\b", "\\b(vlog|daily\\s*vlog|day\\s*in\\s*my\\s*life|routine)\\b"]),
  ("military", ["\\b(نظامی|ارتش|موشک|پهپاد|تسلیحات|رزمایش|جنگ|پدافند|حمله|هجوم)\\b", "\\b(military|army|missile|drone|weapon|war|defense|attack)\\b"]),
  ("news", ["\\b(خبر|گزارش|فوری|تیتر|رویداد|اتفاق|امروز|دیروز)\\b", "\\b(news|breaking|report|headline|event|today|yesterday)\\b"]),
  ("sports", ["\\b(فوتبال|بسکتبال|والیبال|مسابقه|لیگ|گل|تیم|بازیکن)\\b", "\\b(football|soccer|basketball|match|league|goal|team|player)\\b"]),
  ("tech", ["\\b(هوش\\s*مصنوعی|برنامه\\s*نویسی|پایتون|نرم\\s*افزار|سخت\\s*افزار|گجت|تکنولوژی)\\b", "\\b(ai|python|software|hardware|gadget|tech|technology)\\b"]),
  ("gaming", ["\\b(بازی|گیم|کنسول|استریم|لول|گیمر|پلی\\s*استیشن)\\b", "\\b(game|gaming|console|stream|level|gamer|playstation)\\b"]),
  ("religion", ["\\b(قرآن|نماز|مسجد|دعا|حدیث|امام|دین|مذهب)\\b", "\\b(quran|prayer|mosque|dua|hadith|imam|religion)\\b"]),
  ("politics", ["\\b(دولت|وزیر|مجلس|انتخابات|سیاست|حزب|نظام|مسئول|مسئولین)\\b", "\\b(اقتصاد|اقتصادی|تحریم|تحریمها|تورم|قیمت|بازار)\\b", "\\b(روابط|بین\\s*الملل|بینوملل|کشور|کشورها|ملت|مردم)\\b", "\\b(تحول|اصلاحات|بحران|شرایط|وضعیت|اوضاع)\\b", "\\b(شاخص|رشد|توسعه|پیشرفت|عقب\\s*نشینی)\\b", "\\b(government|election|politics|parliament|party|minister)\\b", "\\b(economy|economic|sanctions|inflation|crisis)\\b"]),
  ("entertainment", ["\\b(فیلم|سریال|موسیقی|کلیپ|بازیگر|شو|سینما)\\b", "\\b(movie|series|music|clip|actor|show|cinema)\\b"])]

/-- Per-category weights transcribed from _WEIGHTS (src/core/categorize.py lines 65-72). -/
def simpleWEIGHTS : List (String × ℚ) :=
  [("cooking", 3), ("politics", 5/2), ("news", 2), ("education", 3/2), ("military", 3/2), ("vlog", 1)]

/-- `_WEIGHTS.get(cat, 1.0)` (src/core/categorize.py line 86). -/
def simpleWeightOf (c : String) : ℚ :=
  ((simpleWEIGHTS.find? (fun p => p.1 == c)).map Prod.snd).getD 1

/-- One category's accumulated score: the pattern loop of `classify_text`
(lines 85-89); categories without rules keep their initial 0.0. -/
def simpleScore (hits : String → Nat) (c : String) : ℚ :=
  ((simpleRULES.find? (fun p => p.1 == c)).map
    (fun p => p.2.foldl (fun acc pat => acc + simpleWeightOf c * (hits pat : ℚ)) 0)).getD 0

/-- The `scores` dict of `classify_text`, keyed in `CATEGORIES` order
(it is seeded by `{c: 0.0 for c in CATEGORIES}`). -/
def simpleScores (hits : String → Nat) : List (String × ℚ) :=
  simpleCATEGORIES.map (fun c => (c, simpleScore hits c))

/-- Python `max(scores, key=...)` over insertion order: the first entry
attaining the maximum (later entries replace only on strictly greater). -/
def argmaxFirst : List (String × ℚ) → String × ℚ
  | [] => ("", 0)
  | x :: xs => xs.foldl (fun b p => if b.2 < p.2 then p else b) x

/-- `total = sum(scores.values())` (line 93). -/
def simpleTotal (hits : String → Nat) : ℚ :=
  ((simpleScores hits).map Prod.snd).sum

/-- Result dict of `classify_text` in src/core/categorize.py. -/
structure SimpleResult where
  label : String
  confidence : ℚ
  scores : List (String × ℚ)
deriving DecidableEq, Repr

/-- `classify_text` (src/core/categorize.py lines 78-117): zero total gives
`("other", 0.2)`; a best share below 0.15 keeps the computed share but
relabels to `"other"`; otherwise the best label and its share. -/
def classify_text (hits : String → Nat) : SimpleResult :=
  if simpleTotal hits ≤ 0 then
    { label := "other", confidence := 1/5, scores := simpleScores hits }
  else if (argmaxFirst (simpleScores hits)).2 / simpleTotal hits < 3/20 then
    { label := "other", confidence := (argmaxFirst (simpleScores hits)).2 / simpleTotal hits,
      scores := simpleScores hits }
  else
    { label := (argmaxFirst (simpleScores hits)).1,
      confidence := (argmaxFirst (simpleScores hits)).2 / simpleTotal hits,
      scores := simpleScores hits }

/-! ### Spec-side definitions (for refinement comparison only)
These follow the WORDS OF THE SPEC, not the source, and exist so that the
hierarchical-selection claim (spec §4.4 steps 3/5/6) and the keyword
specificity formula (spec §4.2) can be compared against the code. -/

/-- Spec §4.2: `word_count_of_phrase` — the phrase split at plain spaces. -/
def wordCount (s : String) : Nat :=
  (s.data.foldl
    (fun st c =>
      if c = ' ' then (st.1, false)
      else if st.2 then st else (st.1 + 1, true))
    ((0 : Nat), false)).1

/-- Spec §4.2's specificity: `1 + len(phrase_chars)/12 + 0.35 × (word_count − 1)`.
This is the SPEC's formula; the code uses `1 + len(keyword)/10` (line 441). -/
def specSpecificity (kw : String) : ℚ :=
  1 + (kw.length : ℚ) / 12 + (35/100) * ((wordCount kw : ℚ) - 1)

/-- Spec §4.4 step 3: group-level keyword score = sum of member categories'
raw scores. -/
def specGroupKeywordScore (mc : String → Nat) (textLen : Nat)
    (g : String × List String) : ℚ :=
  (g.2.map (fun m =>
    ((CATEGORIES_DETAILED.find? (fun c => c.name == m)).map (rawScore mc textLen)).getD 0)).sum

/-- Spec §4.4 step 6: the top 2 groups by fused score, ties broken by catalog
insertion order. With no semantic signal the fused group score is the
renormalized softmax of the keyword sums — a strictly monotone transform —
so the top-2 selection ranks by the keyword sums themselves, stably. -/
def specTopTwoGroups (mc : String → Nat) (textLen : Nat) : List String :=
  ((sortDesc (CATEGORY_GROUPS.map
    (fun g => (g.1, specGroupKeywordScore mc textLen g)))).take 2).map Prod.fst

/-- Order-preserving de-duplication (first occurrence kept). -/
def dedupFirst (l : List String) : List String :=
  l.foldl (fun acc x => if acc.contains x then acc else acc ++ [x]) []

/-- Spec §4.4 step 6: candidate categories = ordered de-duplicated union of
the two selected groups' members, falling back to the full category set when
that union is empty. -/
def specCandidateCategories (mc : String → Nat) (textLen : Nat) : List String :=
  if (dedupFirst (((specTopTwoGroups mc textLen).map (fun gname =>
        ((CATEGORY_GROUPS.find? (fun g => g.1 == gname)).map Prod.snd).getD [])).flatten)) = []
  then CATEGORIES_DETAILED.map Category.name
  else dedupFirst (((specTopTwoGroups mc textLen).map (fun gname =>
        ((CATEGORY_GROUPS.find? (fun g => g.1 == gname)).map Prod.snd).getD [])).flatten)

/-! ### Segment voter, modelled from the spec
`EnhancedPipelineWorker.run` (src/app_production.py lines 298-300) invokes
`ProductionCategorizer.classify(asr["text"], segments=full_text_parts)`, but
the `ProductionCategorizer.classify` in src/core/production_categorizer.py
(lines 625-640) accepts no `segments` argument: the segment-voting
implementation is not under src/. The definitions below are therefore
modelled from spec §4.5 ("Segment Voter — multi-segment classification"),
steps 2-5, parameterized by the single-text classifier `cl` (which returns a
ranked category distribution, §4.4's output restricted to what the voter
reads). -/

/-- Modelled from the spec: §4.5 step 2 — the weight of a segment is
`max(20, token_count_of_segment)`. -/
def segWeight (s : String) : ℚ :=
  max 20 ((tokenCount s : Nat) : ℚ)

/-- Score of category `c` in a ranked list (0 when absent). -/
def rankedLookup (l : List (String × ℚ)) (c : String) : ℚ :=
  ((l.find? (fun p => p.1 == c)).map Prod.snd).getD 0

/-- Modelled from the spec: §4.5 step 3 — the running per-category
accumulator: every segment's ranked list adds `score × (weight / total_weight)`. -/
def segmentAccum (cl : String → List (String × ℚ)) (segs : List String) :
    String → ℚ :=
  segs.foldl
    (fun acc s => fun c => acc c + rankedLookup (cl s) c * (segWeight s / (segs.map segWeight).sum))
    (fun _ => 0)

/-- The category identifiers over which distributions are renormalized. -/
def allCategoryNames : List String :=
  CATEGORIES_DETAILED.map Category.name

/-- Total mass of a distribution over the category set. -/
def distTotal (d : String → ℚ) : ℚ :=
  (allCategoryNames.map d).sum

/-- Modelled from the spec: renormalization to sum 1 ("renormalize the
accumulator to sum to 1"); the zero-mass case, which the spec does not
address, is left unscaled. -/
def renormalize (d : String → ℚ) : String → ℚ :=
  fun c => if distTotal d = 0 then d c else d c / distTotal d

/-- Modelled from the spec: §4.5 step 3's `segment_distribution`. -/
def segmentDistribution (cl : String → List (String × ℚ)) (segs : List String) :
    String → ℚ :=
  renormalize (segmentAccum cl segs)

/-- Modelled from the spec: §4.5 step 5 — `blended[c] = 0.70 ×
segment_distribution[c] + 0.30 × full_distribution[c]`, renormalized; the
blend is skipped exactly when the full-text classification's ranked list is
empty. -/
def blendedDistribution (cl : String → List (String × ℚ)) (fullText : String)
    (segs : List String) : String → ℚ :=
  if cl fullText = [] then segmentDistribution cl segs
  else
    renormalize (fun c =>
      (7/10) * segmentDistribution cl segs c + (3/10) * rankedLookup (cl fullText) c)


/-! ### Helper lemmas -/

theorem foldl_add_eq_sum {α : Type} (f : α → ℚ) :
    ∀ (l : List α) (init : ℚ), l.foldl (fun acc x => acc + f x) init = init + (l.map f).sum := by
  intro l
  induction l with
  | nil => intro init; simp
  | cons x xs ih => intro init; simp [ih, add_assoc]

theorem sortDesc_mem {a : String × ℚ} {l : List (String × ℚ)} :
    a ∈ sortDesc l ↔ a ∈ l :=
  (List.perm_insertionSort scoreRel l).mem_iff

theorem sortDesc_sorted (l : List (String × ℚ)) :
    List.Sorted scoreRel (sortDesc l) :=
  List.sorted_insertionSort scoreRel l

theorem sortDesc_head_max {l t : List (String × ℚ)} {b : String × ℚ}
    (h : sortDesc l = b :: t) : ∀ a ∈ l, a.2 ≤ b.2 := by
  intro a ha
  have hmem : a ∈ b :: t := by
    rw [← h]
    exact sortDesc_mem.mpr ha
  have hs := sortDesc_sorted l
  rw [h] at hs
  rcases List.mem_cons.mp hmem with rfl | hmem
  · exact le_refl _
  · exact (List.pairwise_cons.mp hs).1 a hmem

theorem sortDesc_nil_iff {l : List (String × ℚ)} : sortDesc l = [] ↔ l = [] := by
  constructor
  · intro h
    have hp : ([] : List (String × ℚ)).Perm l := by
      have := List.perm_insertionSort scoreRel l
      rw [show List.insertionSort scoreRel l = sortDesc l from rfl, h] at this
      exact this
    exact hp.nil_eq.symm
  · intro h; rw [h]; rfl

theorem keywordScore_nonneg (mc : String → Nat) (textLen : Nat) {boost : ℚ}
    (hb : 0 ≤ boost) (kw : String) : 0 ≤ keywordScore mc textLen boost kw := by
  unfold keywordScore
  split
  · exact le_refl 0
  · refine mul_nonneg (mul_nonneg (div_nonneg ?_ ?_) ?_) hb
    · exact Nat.cast_nonneg _
    · exact Nat.cast_nonneg _
    · have : (0:ℚ) ≤ (kw.length : ℚ) / 10 := div_nonneg (Nat.cast_nonneg _) (by norm_num)
      linarith

theorem rawScore_nonneg (mc : String → Nat) (textLen : Nat) {cat : Category}
    (hb : 0 ≤ cat.weight_boost) : 0 ≤ rawScore mc textLen cat := by
  unfold rawScore
  rw [foldl_add_eq_sum]
  simp only [zero_add]
  apply List.sum_nonneg
  intro x hx
  rcases List.mem_map.mp hx with ⟨kw, _, rfl⟩
  exact keywordScore_nonneg mc textLen hb kw

theorem catalog_boosts_nonneg : ∀ c ∈ CATEGORIES_DETAILED, 0 ≤ c.weight_boost := by
  decide

theorem scoreEntries_nonneg (mc : String → Nat) (textLen : Nat) :
    ∀ p ∈ scoreEntries CATEGORIES_DETAILED mc textLen, 0 ≤ p.2 := by
  intro p hp
  unfold scoreEntries at hp
  rcases List.mem_map.mp hp with ⟨c, hc, rfl⟩
  exact rawScore_nonneg mc textLen (catalog_boosts_nonneg c (List.mem_of_mem_filter hc))

theorem entry_le_total (mc : String → Nat) (textLen : Nat) {p : String × ℚ}
    (hp : p ∈ scoreEntries CATEGORIES_DETAILED mc textLen) :
    p.2 ≤ entriesTotal CATEGORIES_DETAILED mc textLen := by
  unfold entriesTotal
  apply List.single_le_sum
  · intro x hx
    rcases List.mem_map.mp hx with ⟨q, hq, rfl⟩
    exact scoreEntries_nonneg mc textLen q hq
  · exact List.mem_map_of_mem Prod.snd hp

theorem entriesTotal_nonneg (mc : String → Nat) (textLen : Nat) :
    0 ≤ entriesTotal CATEGORIES_DETAILED mc textLen :=
  List.sum_nonneg (by
    intro x hx
    rcases List.mem_map.mp hx with ⟨q, hq, rfl⟩
    exact scoreEntries_nonneg mc textLen q hq)

theorem normEntries_bounds (mc : String → Nat) (textLen : Nat)
    (hpos : 0 < entriesTotal CATEGORIES_DETAILED mc textLen) :
    ∀ p ∈ normEntries CATEGORIES_DETAILED mc textLen, 0 ≤ p.2 ∧ p.2 ≤ 1 := by
  intro p hp
  unfold normEntries at hp
  rcases List.mem_map.mp hp with ⟨q, hq, rfl⟩
  constructor
  · exact div_nonneg (scoreEntries_nonneg mc textLen q hq) (le_of_lt hpos)
  · rw [div_le_one hpos]
    exact entry_le_total mc textLen hq

theorem sortedShares_ne_nil (mc : String → Nat) (textLen : Nat)
    (hpos : ¬ entriesTotal CATEGORIES_DETAILED mc textLen ≤ 0) :
    sortedShares CATEGORIES_DETAILED mc textLen ≠ [] := by
  intro hnil
  apply hpos
  have hempty : scoreEntries CATEGORIES_DETAILED mc textLen = [] := by
    have h1 : normEntries CATEGORIES_DETAILED mc textLen = [] :=
      sortDesc_nil_iff.mp hnil
    unfold normEntries at h1
    exact List.map_eq_nil_iff.mp h1
  unfold entriesTotal
  rw [hempty]
  simp


theorem classify_confidence_bounds (text : String) (mc : String → Nat) :
    0 ≤ (classify CATEGORIES_DETAILED text mc).confidence ∧
    (classify CATEGORIES_DETAILED text mc).confidence ≤ 1 := by
  unfold classify
  split
  · exact ⟨by norm_num [insufficientResult], by norm_num [insufficientResult]⟩
  · split
    · exact ⟨by norm_num [noMatchResult], by norm_num [noMatchResult]⟩
    · rename_i hTot
      split
      · exact ⟨by norm_num [noMatchResult], by norm_num [noMatchResult]⟩
      · rename_i bestCat bestConf rest heq
        have hpos : 0 < entriesTotal CATEGORIES_DETAILED mc (tokenCount text) :=
          lt_of_not_le hTot
        have hmem : (bestCat, bestConf) ∈ normEntries CATEGORIES_DETAILED mc (tokenCount text) := by
          have : (bestCat, bestConf) ∈ sortedShares CATEGORIES_DETAILED mc (tokenCount text) := by
            rw [heq]; exact List.mem_cons_self _ _
          exact sortDesc_mem.mp this
        have hb := normEntries_bounds mc (tokenCount text) hpos _ hmem
        split
        · exact ⟨by norm_num, by norm_num⟩
        · exact ⟨hb.1, hb.2⟩

theorem classify_method_cases (cats : List Category) (text : String) (mc : String → Nat) :
    (classify cats text mc).method = "insufficient_text" ∨
    (classify cats text mc).method = "no_match" ∨
    (classify cats text mc).method = "regex_tfidf" := by
  unfold classify
  split
  · exact Or.inl rfl
  · split
    · exact Or.inr (Or.inl rfl)
    · split
      · exact Or.inr (Or.inl rfl)
      · split
        · exact Or.inr (Or.inr rfl)
        · exact Or.inr (Or.inr rfl)

theorem combineResults_confidence_bounds (r : ClassifyResult) (m : MlResult)
    (hr0 : 0 ≤ r.confidence) (hr1 : r.confidence ≤ 1)
    (hm0 : 0 ≤ m.confidence) (hm1 : m.confidence ≤ 1) :
    0 ≤ (combineResults r m).confidence ∧ (combineResults r m).confidence ≤ 1 := by
  unfold combineResults
  split
  · constructor
    · exact le_min (by linarith) (by norm_num)
    · exact le_trans (min_le_right _ _) (by norm_num)
  · split
    · constructor
      · exact le_trans (mul_nonneg hr0 (by norm_num)) (le_max_left _ _)
      · exact max_le (by nlinarith) (by nlinarith)
    · constructor
      · exact le_trans (mul_nonneg hr0 (by norm_num)) (le_max_left _ _)
      · exact max_le (by nlinarith) (by nlinarith)

theorem hybridClassify_confidence_bounds (useMl mlAvailable : Bool)
    (mlc : String → Except String MlResult) (text : String) (mc : String → Nat)
    (hml : ∀ t m, mlc t = Except.ok m → 0 ≤ m.confidence ∧ m.confidence ≤ 1) :
    0 ≤ (hybridClassify useMl mlAvailable mlc text mc).confidence ∧
    (hybridClassify useMl mlAvailable mlc text mc).confidence ≤ 1 := by
  have hr := classify_confidence_bounds text mc
  unfold hybridClassify
  split
  · exact hr
  · split
    · split
      · rename_i m heq
        exact combineResults_confidence_bounds _ _ hr.1 hr.2 (hml _ m heq).1 (hml _ m heq).2
      · exact hr
    · exact hr

theorem argmaxFirst_foldl_invariant :
    ∀ (xs : List (String × ℚ)) (b : String × ℚ),
      ((xs.foldl (fun acc p => if acc.2 < p.2 then p else acc) b) = b ∨
        (xs.foldl (fun acc p => if acc.2 < p.2 then p else acc) b) ∈ xs) ∧
      b.2 ≤ (xs.foldl (fun acc p => if acc.2 < p.2 then p else acc) b).2 ∧
      ∀ p ∈ xs, p.2 ≤ (xs.foldl (fun acc p => if acc.2 < p.2 then p else acc) b).2 := by
  intro xs
  induction xs with
  | nil => intro b; exact ⟨Or.inl rfl, le_refl _, by intro p hp; cases hp⟩
  | cons y ys ih =>
    intro b
    simp only [List.foldl_cons]
    by_cases hcond : b.2 < y.2
    · simp only [if_pos hcond]
      rcases ih y with ⟨hmem, hle, hall⟩
      refine ⟨?_, le_trans (le_of_lt hcond) hle, ?_⟩
      · rcases hmem with heq | hmem
        · exact Or.inr (by rw [heq]; exact List.mem_cons_self _ _)
        · exact Or.inr (List.mem_cons_of_mem _ hmem)
      · intro p hp
        rcases List.mem_cons.mp hp with rfl | hp
        · exact hle
        · exact hall p hp
    · simp only [if_neg hcond]
      rcases ih b with ⟨hmem, hle, hall⟩
      refine ⟨?_, hle, ?_⟩
      · rcases hmem with heq | hmem
        · exact Or.inl heq
        · exact Or.inr (List.mem_cons_of_mem _ hmem)
      · intro p hp
        rcases List.mem_cons.mp hp with rfl | hp
        · exact le_trans (le_of_not_lt hcond) hle
        · exact hall p hp

theorem argmaxFirst_mem {l : List (String × ℚ)} (h : l ≠ []) : argmaxFirst l ∈ l := by
  match l, h with
  | x :: xs, _ =>
    rcases (argmaxFirst_foldl_invariant xs x).1 with heq | hmem
    · rw [show argmaxFirst (x :: xs) = xs.foldl (fun acc p => if acc.2 < p.2 then p else acc) x from rfl, heq]
      exact List.mem_cons_self _ _
    · exact List.mem_cons_of_mem _ hmem

theorem argmaxFirst_ge {l : List (String × ℚ)} (h : l ≠ []) :
    ∀ p ∈ l, p.2 ≤ (argmaxFirst l).2 := by
  match l, h with
  | x :: xs, _ =>
    intro p hp
    rcases List.mem_cons.mp hp with rfl | hp
    · exact (argmaxFirst_foldl_invariant xs p).2.1
    · exact (argmaxFirst_foldl_invariant xs x).2.2 p hp

theorem simpleWeightOf_nonneg (c : String) : 0 ≤ simpleWeightOf c := by
  unfold simpleWeightOf
  cases h : simpleWEIGHTS.find? (fun p => p.1 == c) with
  | none => norm_num
  | some p =>
    have hm := List.mem_of_find?_eq_some h
    show 0 ≤ p.2
    fin_cases hm <;> norm_num

theorem simpleScore_nonneg (hits : String → Nat) (c : String) : 0 ≤ simpleScore hits c := by
  unfold simpleScore
  cases h : simpleRULES.find? (fun p => p.1 == c) with
  | none => norm_num
  | some p =>
    show 0 ≤ p.2.foldl (fun acc pat => acc + simpleWeightOf c * ((hits pat : Nat) : ℚ)) 0
    rw [foldl_add_eq_sum]
    simp only [zero_add]
    apply List.sum_nonneg
    intro x hx
    rcases List.mem_map.mp hx with ⟨pat, _, rfl⟩
    exact mul_nonneg (simpleWeightOf_nonneg c) (Nat.cast_nonneg _)

theorem simpleScores_nonneg (hits : String → Nat) :
    ∀ p ∈ simpleScores hits, 0 ≤ p.2 := by
  intro p hp
  rcases List.mem_map.mp hp with ⟨c, _, rfl⟩
  exact simpleScore_nonneg hits c

theorem simpleScores_ne_nil (hits : String → Nat) : simpleScores hits ≠ [] := by
  intro h
  simp [simpleScores, simpleCATEGORIES] at h

theorem classify_text_confidence_bounds (hits : String → Nat) :
    0 ≤ (classify_text hits).confidence ∧ (classify_text hits).confidence ≤ 1 := by
  unfold classify_text
  split
  · exact ⟨by norm_num, by norm_num⟩
  · rename_i hTot
    have hpos : 0 < simpleTotal hits := lt_of_not_le hTot
    have hmem := argmaxFirst_mem (simpleScores_ne_nil hits)
    have h0 : 0 ≤ (argmaxFirst (simpleScores hits)).2 :=
      simpleScores_nonneg hits _ hmem
    have h1 : (argmaxFirst (simpleScores hits)).2 ≤ simpleTotal hits := by
      unfold simpleTotal
      apply List.single_le_sum
      · intro x hx
        rcases List.mem_map.mp hx with ⟨q, hq, rfl⟩
        exact simpleScores_nonneg hits q hq
      · exact List.mem_map_of_mem Prod.snd hmem
    have hb0 : 0 ≤ (argmaxFirst (simpleScores hits)).2 / simpleTotal hits :=
      div_nonneg h0 (le_of_lt hpos)
    have hb1 : (argmaxFirst (simpleScores hits)).2 / simpleTotal hits ≤ 1 := by
      rw [div_le_one hpos]; exact h1
    split
    · exact ⟨hb0, hb1⟩
    · exact ⟨hb0, hb1⟩


/-! ### Concrete inputs used by witnesses and counterexamples
Each oracle is realizable: the accompanying text makes every compiled
keyword pattern (`\\b`-anchored, case-insensitive on the lowercased text)
match exactly the stated number of times, and no other keyword matches. -/

/-- Text whose only keyword matches are three hits of crypto's "bitcoin". -/
def textBitcoin : String := "bitcoin bitcoin bitcoin"

/-- Match counts realized by `textBitcoin`. -/
def mcBitcoin : String → Nat := fun kw => if kw = "bitcoin" then 3 else 0

/-- Seven keywords of seven distinct categories, one hit each: realizes
match counts where the best normalized share is 17/95 ∈ [0.1, 0.2). -/
def textSeven : String := "news bitcoin AI API VPN ASMR PC"

/-- Match counts realized by `textSeven`. -/
def mcSeven : String → Nat :=
  fun kw => if ["news", "bitcoin", "AI", "API", "VPN", "ASMR", "PC"].contains kw then 1 else 0

/-- Twelve keywords of twelve distinct categories, one hit each; every
normalized share is at most 14/154 < 0.1, so the low-confidence override fires. -/
def textTwelve : String := "خبر ارز جنگ چین شوش نجف رم قلب گل آش فیلم سفر"

/-- Match counts realized by `textTwelve`. -/
def mcTwelve : String → Nat :=
  fun kw =>
    if ["خبر", "ارز", "جنگ", "چین", "شوش", "نجف", "رم", "قلب", "گل", "آش", "فیلم", "سفر"].contains kw
    then 1 else 0

/-- 25 tokens: "bitcoin"×5, "AI"×4, "API"×4, "VPN"×4, "news"×4, "مجلس"×4.
The single best category is crypto (raw 0.34), yet its group "economy"
(sum 0.34) ranks below both "technology" (0.608) and "news_politics" (0.448). -/
def textHier : String :=
  "bitcoin bitcoin bitcoin bitcoin bitcoin AI AI AI AI API API API API VPN VPN VPN VPN news news news news مجلس مجلس مجلس مجلس"

/-- Match counts realized by `textHier`. -/
def mcHier : String → Nat :=
  fun kw =>
    if kw = "bitcoin" then 5
    else if kw = "AI" then 4
    else if kw = "API" then 4
    else if kw = "VPN" then 4
    else if kw = "news" then 4
    else if kw = "مجلس" then 4
    else 0

/-- Sufficiently long text in which no keyword pattern matches. -/
def textNoHit : String := "zxqv zxqv zxqv zxqv zxqv"

/-! ### Claim theorems -/

set_option maxRecDepth 40000

/-- C4 (confirmed): any input whose stripped length is below 20 characters
(including "" and "a") returns immediately with label "other", confidence
exactly 0.10, ranked list [("other", 0.10)] and method "insufficient_text". -/
theorem claim4_insufficient_text (text : String) (mc : String → Nat)
    (h : pyStripLen text < 20) :
    classify CATEGORIES_DETAILED text mc = insufficientResult ∧
    insufficientResult.label = "other" ∧
    insufficientResult.confidence = 1/10 ∧
    insufficientResult.top_categories = [("other", 1/10)] ∧
    insufficientResult.method = "insufficient_text" := by
  refine ⟨?_, rfl, rfl, rfl, rfl⟩
  unfold classify
  rw [if_pos (Or.inr h)]

/-- Witness for C4 at the inputs named by the spec: `classify("")` and
`classify("a")`. -/
theorem claim4_witness :
    classify CATEGORIES_DETAILED "" (fun _ => 0) = insufficientResult ∧
    classify CATEGORIES_DETAILED "a" (fun _ => 0) = insufficientResult :=
  ⟨(claim4_insufficient_text "" (fun _ => 0) (by decide)).1,
   (claim4_insufficient_text "a" (fun _ => 0) (by decide)).1⟩

/-- C6 (amended): with sufficient length and no keyword match anywhere, the
classifier returns the defined record with label "other" and confidence
exactly 0.15 — but its method tag is "no_match", not the claim's "no_signal". -/
theorem claim6_no_match_amended (text : String) (mc : String → Nat)
    (hlen : ¬ (text = "" ∨ pyStripLen text < 20))
    (hnone : ∀ c ∈ CATEGORIES_DETAILED, ∀ kw ∈ c.keywords, mc kw = 0) :
    classify CATEGORIES_DETAILED text mc = noMatchResult ∧
    noMatchResult.label = "other" ∧
    noMatchResult.confidence = 3/20 ∧
    noMatchResult.method = "no_match" := by
  refine ⟨?_, rfl, rfl, rfl⟩
  have hentries : scoreEntries CATEGORIES_DETAILED mc (tokenCount text) = [] := by
    unfold scoreEntries
    rw [List.filter_eq_nil_iff.mpr ?_]
    · rfl
    · intro c hc
      intro hany
      rcases List.any_eq_true.mp hany with ⟨kw, hkw, hbne⟩
      have hkwne : mc kw ≠ 0 := by simpa using hbne
      exact hkwne (hnone c hc kw hkw)
  have htot : entriesTotal CATEGORIES_DETAILED mc (tokenCount text) = 0 := by
    unfold entriesTotal
    rw [hentries]
    rfl
  unfold classify
  rw [if_neg hlen, if_pos (le_of_eq htot)]

/-- C6 counterexample: at a concrete no-match input the code's method tag is
"no_match", where the claim requires "no_signal" (the label and the 0.15
confidence do agree). Realized by `textNoHit`, which contains no keyword. -/
theorem claim6_counterexample :
    (classify CATEGORIES_DETAILED textNoHit (fun _ => 0)).label = "other" ∧
    (classify CATEGORIES_DETAILED textNoHit (fun _ => 0)).confidence = 3/20 ∧
    (classify CATEGORIES_DETAILED textNoHit (fun _ => 0)).method = "no_match" ∧
    (classify CATEGORIES_DETAILED textNoHit (fun _ => 0)).method ≠ "no_signal" := by
  decide

/-- Witness for C6's amended theorem at `textNoHit` with the all-zero oracle. -/
theorem claim6_witness :
    classify CATEGORIES_DETAILED textNoHit (fun _ => 0) = noMatchResult :=
  (claim6_no_match_amended textNoHit (fun _ => 0) (by decide)
    (fun _ _ _ _ => rfl)).1

/-- C5 (amended): on the scored path the low-confidence override fires at
threshold 0.10 (not the claim's 0.20) on the top normalized share, setting
label "other" and confidence exactly 0.20; when the top share is at least
0.10 the confidence equals that share, hence every non-overridden result has
confidence at least 0.10 (not the claim's 0.20). -/
theorem claim5_override_amended (text : String) (mc : String → Nat)
    (hlen : ¬ (text = "" ∨ pyStripLen text < 20))
    (hsig : ¬ entriesTotal CATEGORIES_DETAILED mc (tokenCount text) ≤ 0) :
    (topShare CATEGORIES_DETAILED mc (tokenCount text) < 1/10 →
      (classify CATEGORIES_DETAILED text mc).label = "other" ∧
      (classify CATEGORIES_DETAILED text mc).confidence = 1/5) ∧
    (1/10 ≤ topShare CATEGORIES_DETAILED mc (tokenCount text) →
      (classify CATEGORIES_DETAILED text mc).confidence =
        topShare CATEGORIES_DETAILED mc (tokenCount text) ∧
      1/10 ≤ (classify CATEGORIES_DETAILED text mc).confidence) := by
  unfold classify
  rw [if_neg hlen, if_neg hsig]
  split
  · rename_i hnil
    exact absurd hnil (sortedShares_ne_nil mc (tokenCount text) hsig)
  · rename_i bc bs tl heq
    have hts : topShare CATEGORIES_DETAILED mc (tokenCount text) = bs := by
      unfold topShare
      rw [heq]
      rfl
    rw [hts]
    constructor
    · intro hlt
      rw [if_pos hlt]
      exact ⟨rfl, rfl⟩
    · intro hge
      rw [if_neg (not_lt.mpr hge)]
      exact ⟨rfl, hge⟩

/-- C5 counterexample: at `textSeven`/`mcSeven` the computed confidence is
17/95 < 0.20 with best category "crypto" ≠ "other", yet no override happens:
the result keeps label "crypto" with confidence 17/95 — refuting both the
override-at-0.20 direction and the converse (a non-"other" label with
confidence below 0.20). -/
theorem claim5_counterexample :
    (classify CATEGORIES_DETAILED textSeven mcSeven).label = "crypto" ∧
    (classify CATEGORIES_DETAILED textSeven mcSeven).label ≠ "other" ∧
    (classify CATEGORIES_DETAILED textSeven mcSeven).confidence = 17/95 ∧
    (classify CATEGORIES_DETAILED textSeven mcSeven).confidence < 1/5 := by
  decide

/-- Witness for C5's amended theorem: the override branch at
`textTwelve`/`mcTwelve` (top share 1/11 < 1/10) and the no-override branch at
`textSeven`/`mcSeven` (top share 17/95 ≥ 1/10). -/
theorem claim5_witness :
    ((classify CATEGORIES_DETAILED textTwelve mcTwelve).label = "other" ∧
      (classify CATEGORIES_DETAILED textTwelve mcTwelve).confidence = 1/5) ∧
    ((classify CATEGORIES_DETAILED textSeven mcSeven).confidence =
        topShare CATEGORIES_DETAILED mcSeven (tokenCount textSeven) ∧
      1/10 ≤ (classify CATEGORIES_DETAILED textSeven mcSeven).confidence) :=
  ⟨(claim5_override_amended textTwelve mcTwelve (by decide) (by decide)).1 (by decide),
   (claim5_override_amended textSeven mcSeven (by decide) (by decide)).2 (by decide)⟩

/-- C3 (amended): each keyword phrase matched `c` times contributes exactly
`term_frequency × specificity × weight_boost` with
`term_frequency = c / max(N, 1)` and `specificity = 1 + len(phrase_chars)/10`
— no word-count term and divisor 10, not the claim's
`1 + len/12 + 0.35 × (word_count − 1)`; the category's raw score is the sum
of these contributions. -/
theorem claim3_contribution_amended (mc : String → Nat) (textLen : Nat) (cat : Category) :
    rawScore mc textLen cat =
      (cat.keywords.map (fun kw =>
        ((mc kw : ℚ) / ((max textLen 1 : Nat) : ℚ)) * (1 + (kw.length : ℚ) / 10) *
          cat.weight_boost)).sum := by
  unfold rawScore
  rw [foldl_add_eq_sum]
  rw [zero_add]
  congr 1
  apply List.map_congr_left
  intro kw _
  unfold keywordScore
  split
  · rename_i h
    rw [h]
    simp
  · rfl

/-- C3 counterexample: for the one-word keyword "bitcoin" (7 characters)
matched 3 times in a 3-token text — realized by `textBitcoin` — the code
accumulates 3/3 × (1 + 7/10) × 1 = 17/10 into crypto's raw score, while the
claim's formula gives 3/3 × (1 + 7/12 + 0.35 × 0) × 1 = 19/12 ≠ 17/10. -/
theorem claim3_counterexample :
    rawScore mcBitcoin 3 cat_crypto = 17/10 ∧
    ((3:ℚ)/3) * specSpecificity "bitcoin" * cat_crypto.weight_boost = 19/12 ∧
    (17/10 : ℚ) ≠ 19/12 := by
  decide


/-- C1 (amended): single-text classification is flat, not hierarchical —
whenever the result's label is not "other", the pair (label, confidence) is
one of the normalized scores over the FULL matched category set (no
restriction to any two-group candidate union), and its score is maximal
among all of them; groups enter only afterwards, as the `category_group`
annotation. -/
theorem claim1_flat_argmax (text : String) (mc : String → Nat) (p : String × ℚ)
    (hp : p ∈ (classify CATEGORIES_DETAILED text mc).all_scores)
    (hl : (classify CATEGORIES_DETAILED text mc).label ≠ "other") :
    ((classify CATEGORIES_DETAILED text mc).label,
      (classify CATEGORIES_DETAILED text mc).confidence) ∈
      (classify CATEGORIES_DETAILED text mc).all_scores ∧
    p.2 ≤ (classify CATEGORIES_DETAILED text mc).confidence := by
  by_cases h1 : text = "" ∨ pyStripLen text < 20
  · have hi : classify CATEGORIES_DETAILED text mc = insufficientResult := by
      unfold classify
      rw [if_pos h1]
    rw [hi] at hl
    exact absurd rfl hl
  by_cases h2 : entriesTotal CATEGORIES_DETAILED mc (tokenCount text) ≤ 0
  · have hi : classify CATEGORIES_DETAILED text mc = noMatchResult := by
      unfold classify
      rw [if_neg h1, if_pos h2]
    rw [hi] at hl
    exact absurd rfl hl
  cases heq : sortedShares CATEGORIES_DETAILED mc (tokenCount text) with
  | nil => exact absurd heq (sortedShares_ne_nil mc (tokenCount text) h2)
  | cons hd tl =>
    obtain ⟨bc, bs⟩ := hd
    by_cases h3 : bs < 1/10
    · have hi : classify CATEGORIES_DETAILED text mc =
          { label := "other", label_fa := nameFaOf CATEGORIES_DETAILED "other",
            confidence := 1/5,
            top_categories := (sortedShares CATEGORIES_DETAILED mc (tokenCount text)).take 3,
            all_scores := normEntries CATEGORIES_DETAILED mc (tokenCount text),
            method := "regex_tfidf" } := by
        unfold classify
        rw [if_neg h1, if_neg h2, heq]
        exact if_pos h3
      rw [hi] at hl
      exact absurd rfl hl
    · have hi : classify CATEGORIES_DETAILED text mc =
          { label := bc, label_fa := nameFaOf CATEGORIES_DETAILED bc,
            confidence := bs,
            top_categories := (sortedShares CATEGORIES_DETAILED mc (tokenCount text)).take 3,
            all_scores := normEntries CATEGORIES_DETAILED mc (tokenCount text),
            method := "regex_tfidf" } := by
        unfold classify
        rw [if_neg h1, if_neg h2, heq]
        exact if_neg h3
      rw [hi] at hp ⊢
      constructor
      · have hmem : (bc, bs) ∈ sortedShares CATEGORIES_DETAILED mc (tokenCount text) := by
          rw [heq]
          exact List.mem_cons_self _ _
        exact sortDesc_mem.mp hmem
      · exact sortDesc_head_max heq p hp

/-- C1 counterexample: at `textHier`/`mcHier` the code labels the text
"crypto", but the spec's hierarchical procedure selects the top-2 groups
"technology" and "news_politics", whose (non-empty) member union does not
contain "crypto": the final label is NOT drawn from the candidate set. -/
theorem claim1_counterexample :
    (classify CATEGORIES_DETAILED textHier mcHier).label = "crypto" ∧
    specTopTwoGroups mcHier (tokenCount textHier) = ["technology", "news_politics"] ∧
    specCandidateCategories mcHier (tokenCount textHier) ≠ [] ∧
    "crypto" ∉ specCandidateCategories mcHier (tokenCount textHier) := by
  decide

/-- Witness for C1's amended theorem at `textBitcoin`: the label "crypto"
carries the maximal (indeed the only) normalized score. -/
theorem claim1_witness :
    ((classify CATEGORIES_DETAILED textBitcoin mcBitcoin).label,
      (classify CATEGORIES_DETAILED textBitcoin mcBitcoin).confidence) ∈
      (classify CATEGORIES_DETAILED textBitcoin mcBitcoin).all_scores ∧
    ("crypto", (1:ℚ)).2 ≤ (classify CATEGORIES_DETAILED textBitcoin mcBitcoin).confidence :=
  claim1_flat_argmax textBitcoin mcBitcoin ("crypto", 1) (by decide) (by decide)

/-- C9 (amended): the static tables do satisfy the partition invariant —
every catalog category appears in the member list of exactly one group, and
every group member names an existing category — but this holds by
construction of the literals only: no load-time validation exists. -/
theorem claim9_partition_invariant :
    (CATEGORIES_DETAILED.all (fun c =>
        CATEGORY_GROUPS.countP (fun g => g.2.contains c.name) == 1) &&
      CATEGORY_GROUPS.all (fun g =>
        g.2.all (fun m => CATEGORIES_DETAILED.any (fun c => c.name == m)))) = true := by
  decide

/-- A category assigned to no group, used to exhibit the absence of catalog
validation. -/
def rogueCategory : Category :=
  { name := "rogue", name_fa := "", description := "",
    keywords := ["rogueword"], weight_boost := 1 }

/-- C9 counterexample: the claim's "loading fails if any category is
unassigned" has no counterpart in the code — there is no loader or
validator; with an extra category belonging to zero groups the classifier
happily classifies (here labelling the text with the rogue category), where
the claim requires a load-time failure before any classification. -/
theorem claim9_counterexample :
    CATEGORY_GROUPS.countP (fun g => g.2.contains rogueCategory.name) = 0 ∧
    (classify (CATEGORIES_DETAILED ++ [rogueCategory]) "rogueword rogueword rogueword"
        (fun kw => if kw = "rogueword" then 3 else 0)).label = "rogue" ∧
    (classify (CATEGORIES_DETAILED ++ [rogueCategory]) "rogueword rogueword rogueword"
        (fun kw => if kw = "rogueword" then 3 else 0)).method = "regex_tfidf" := by
  decide

/-- C8 (confirmed): on every code path — insufficient text, no match, normal
scoring, low-confidence override (all inside `classify`), the hybrid
regex/ML combination, and the fallback `classify_text` — the returned
confidence lies in [0, 1]. The hybrid part assumes only that the ML oracle's
own confidences lie in [0, 1] (zero-shot pipeline scores are softmax
outputs). -/
theorem claim8_confidence_unit_interval :
    (∀ text mc, 0 ≤ (classify CATEGORIES_DETAILED text mc).confidence ∧
      (classify CATEGORIES_DETAILED text mc).confidence ≤ 1) ∧
    (∀ r m, 0 ≤ r.confidence → r.confidence ≤ 1 → 0 ≤ m.confidence → m.confidence ≤ 1 →
      0 ≤ (combineResults r m).confidence ∧ (combineResults r m).confidence ≤ 1) ∧
    (∀ useMl mlAvailable mlc text mc,
      (∀ t m', mlc t = Except.ok m' → 0 ≤ m'.confidence ∧ m'.confidence ≤ 1) →
      0 ≤ (hybridClassify useMl mlAvailable mlc text mc).confidence ∧
      (hybridClassify useMl mlAvailable mlc text mc).confidence ≤ 1) ∧
    (∀ hits, 0 ≤ (classify_text hits).confidence ∧ (classify_text hits).confidence ≤ 1) :=
  ⟨classify_confidence_bounds,
   combineResults_confidence_bounds,
   hybridClassify_confidence_bounds,
   classify_text_confidence_bounds⟩

/-- C7 (confirmed): when the ML backend fails (every call raises, modelled
as `Except.error`), the hybrid classifier still returns the keyword-only
result — unchanged, or relabelled "regex_high_confidence" on the
high-confidence shortcut — and its method tag is always one of the four
keyword-only tags (no "ml"/"hybrid" qualifier); no exception propagates
(the embedding is total and lands in the `except` fallback branch). -/
theorem claim7_ml_failure_fallback (useMl mlAvailable : Bool)
    (mlc : String → Except String MlResult) (text : String) (mc : String → Nat)
    (hfail : ∀ t, ∃ e, mlc t = Except.error e) :
    (hybridClassify useMl mlAvailable mlc text mc = classify CATEGORIES_DETAILED text mc ∨
      hybridClassify useMl mlAvailable mlc text mc =
        { classify CATEGORIES_DETAILED text mc with method := "regex_high_confidence" }) ∧
    (hybridClassify useMl mlAvailable mlc text mc).method ∈
      ["insufficient_text", "no_match", "regex_tfidf", "regex_high_confidence"] := by
  obtain ⟨e, he⟩ := hfail text
  unfold hybridClassify
  split
  · refine ⟨Or.inr rfl, ?_⟩
    simp
  · split
    · rw [he]
      refine ⟨Or.inl rfl, ?_⟩
      rcases classify_method_cases CATEGORIES_DETAILED text mc with h | h | h <;> simp [h]
    · refine ⟨Or.inl rfl, ?_⟩
      rcases classify_method_cases CATEGORIES_DETAILED text mc with h | h | h <;> simp [h]

/-- Witness for C7 with an always-failing ML oracle at `textBitcoin`. -/
theorem claim7_witness :
    (hybridClassify true true (fun _ => Except.error "timeout") textBitcoin mcBitcoin =
        classify CATEGORIES_DETAILED textBitcoin mcBitcoin ∨
      hybridClassify true true (fun _ => Except.error "timeout") textBitcoin mcBitcoin =
        { classify CATEGORIES_DETAILED textBitcoin mcBitcoin with
            method := "regex_high_confidence" }) ∧
    (hybridClassify true true (fun _ => Except.error "timeout") textBitcoin mcBitcoin).method ∈
      ["insufficient_text", "no_match", "regex_tfidf", "regex_high_confidence"] :=
  claim7_ml_failure_fallback true true (fun _ => Except.error "timeout") textBitcoin mcBitcoin
    (fun _ => ⟨"timeout", rfl⟩)

/-- C10 (confirmed): whenever the keyword result's confidence is at least
0.4, the hybrid classifier returns exactly that result with only its method
tag changed to "regex_high_confidence", and the ML oracle is never
consulted: the output is identical for any two ML backends and any
availability flags. -/
theorem claim10_high_confidence_shortcut (useMl mlAvailable : Bool)
    (mlc mlcOther : String → Except String MlResult) (text : String) (mc : String → Nat)
    (hconf : (4/10 : ℚ) ≤ (classify CATEGORIES_DETAILED text mc).confidence) :
    hybridClassify useMl mlAvailable mlc text mc =
      { classify CATEGORIES_DETAILED text mc with method := "regex_high_confidence" } ∧
    hybridClassify useMl mlAvailable mlc text mc =
      hybridClassify useMl mlAvailable mlcOther text mc := by
  constructor
  · unfold hybridClassify
    rw [if_pos hconf]
  · unfold hybridClassify
    rw [if_pos hconf, if_pos hconf]

/-- Witness for C10 at `textBitcoin` (keyword confidence 1 ≥ 0.4), with a
failing and a succeeding ML oracle producing the same output. -/
theorem claim10_witness :
    hybridClassify true true (fun _ => Except.error "down") textBitcoin mcBitcoin =
      { classify CATEGORIES_DETAILED textBitcoin mcBitcoin with
          method := "regex_high_confidence" } ∧
    hybridClassify true true (fun _ => Except.error "down") textBitcoin mcBitcoin =
      hybridClassify true true
        (fun _ => Except.ok
          { label := "news", label_fa := "اخبار", confidence := 9/10,
            method := "ml_zero_shot" })
        textBitcoin mcBitcoin :=
  claim10_high_confidence_shortcut true true (fun _ => Except.error "down")
    (fun _ => Except.ok
      { label := "news", label_fa := "اخبار", confidence := 9/10, method := "ml_zero_shot" })
    textBitcoin mcBitcoin (by decide)


theorem foldl_fun_add_eq_sum {α : Type} (f : α → String → ℚ) :
    ∀ (l : List α) (acc : String → ℚ) (c : String),
      (l.foldl (fun acc s => fun x => acc x + f s x) acc) c =
        acc c + (l.map (fun s => f s c)).sum := by
  intro l
  induction l with
  | nil => intro acc c; simp
  | cons s ss ih =>
    intro acc c
    simp only [List.foldl_cons, List.map_cons, List.sum_cons]
    rw [ih]
    ring

theorem sum_map_div (l : List String) (d : String → ℚ) (T : ℚ) :
    (l.map (fun c => d c / T)).sum = (l.map d).sum / T := by
  induction l with
  | nil => simp
  | cons x xs ih => simp [ih, add_div]

/-- C2 (confirmed against the spec model; the `segments=` entry point is
absent from src/): for a full text plus a non-empty sequence of non-empty
segments, (i) the per-category accumulator is exactly the sum over segments
of `score × (max(20, token_count) / total_weight)`; (ii) the blend is
skipped exactly when the full-text ranked list is empty, in which case the
output is the renormalized segment distribution; (iii) otherwise the output
is `0.70 × segment_distribution + 0.30 × full_distribution`, renormalized;
and (iv)/(v) both the segment distribution and the blended distribution sum
to 1 over the category set whenever their pre-normalization mass is
positive. -/
theorem claim2_segment_voting (cl : String → List (String × ℚ)) (fullText : String)
    (segs : List String) (c : String)
    (_hne : segs ≠ []) (_hso : ∀ s ∈ segs, s ≠ "") :
    segmentAccum cl segs c =
      (segs.map (fun s =>
        rankedLookup (cl s) c * (segWeight s / (segs.map segWeight).sum))).sum ∧
    (cl fullText = [] →
      blendedDistribution cl fullText segs c = segmentDistribution cl segs c) ∧
    (cl fullText ≠ [] →
      blendedDistribution cl fullText segs c =
        renormalize (fun x => (7/10) * segmentDistribution cl segs x +
          (3/10) * rankedLookup (cl fullText) x) c) ∧
    (0 < distTotal (segmentAccum cl segs) →
      (allCategoryNames.map (segmentDistribution cl segs)).sum = 1) ∧
    (cl fullText ≠ [] →
      0 < distTotal (fun x => (7/10) * segmentDistribution cl segs x +
        (3/10) * rankedLookup (cl fullText) x) →
      (allCategoryNames.map (blendedDistribution cl fullText segs)).sum = 1) := by
  refine ⟨?_, ?_, ?_, ?_, ?_⟩
  · unfold segmentAccum
    rw [foldl_fun_add_eq_sum]
    simp
  · intro hfull
    unfold blendedDistribution
    rw [if_pos hfull]
  · intro hfull
    unfold blendedDistribution
    rw [if_neg hfull]
  · intro hpos
    have hT : distTotal (segmentAccum cl segs) ≠ 0 := ne_of_gt hpos
    unfold segmentDistribution renormalize
    simp only [if_neg hT]
    rw [sum_map_div]
    exact div_self hT
  · intro hfull hpos
    have hT : distTotal (fun x => (7/10) * segmentDistribution cl segs x +
        (3/10) * rankedLookup (cl fullText) x) ≠ 0 := ne_of_gt hpos
    unfold blendedDistribution
    rw [if_neg hfull]
    unfold renormalize
    simp only [if_neg hT]
    rw [sum_map_div]
    exact div_self hT

/-- Witness for C2: one two-token segment (weight max(20, 2) = 20) and a
constant classifier; the accumulator matches the weighted-sum formula and
the segment distribution sums to 1. -/
theorem claim2_witness :
    segmentAccum (fun _ => [("news", (1:ℚ))]) ["a b"] "news" =
      ((["a b"].map (fun s =>
        rankedLookup ((fun _ => [("news", (1:ℚ))]) s) "news" *
          (segWeight s / ((["a b"].map segWeight).sum)))).sum) ∧
    (allCategoryNames.map
      (segmentDistribution (fun _ => [("news", (1:ℚ))]) ["a b"])).sum = 1 :=
  ⟨(claim2_segment_voting (fun _ => [("news", (1:ℚ))]) "full" ["a b"] "news"
      (by decide) (by decide)).1,
   (claim2_segment_voting (fun _ => [("news", (1:ℚ))]) "full" ["a b"] "news"
      (by decide) (by decide)).2.2.2.1 (by decide)⟩


end SVC
